import Mathlib

set_option maxHeartbeats 1000000

/-! Shallow embedding of the jules-agent-api job lifecycle and change-pipeline
engine (src/main.py): task records, the storage abstraction, the
start/status/result endpoints, and the run_agent pipeline. -/

/-- A stored job record: the dict `{"status": ..., "result": ...}` written by
`start_task` (creation) and `run_agent` (terminal update). -/
structure TaskRecord where
  status : String
  result : Option String
deriving DecidableEq, Repr

/-- The task mapping held by the store: a Python dict, modelled as an
insertion-ordered association list. -/
abbrev TaskMap := List (String × TaskRecord)

/-- Python `tasks.get(k)`. -/
def mapGet : TaskMap → String → Option TaskRecord
  | [], _ => none
  | p :: rest, k => if p.1 == k then some p.2 else mapGet rest k

/-- Python dict assignment `tasks[k] = v`: replace in place if the key exists,
otherwise append. -/
def mapSet : TaskMap → String → TaskRecord → TaskMap
  | [], k, v => [(k, v)]
  | p :: rest, k, v => if p.1 == k then (k, v) :: rest else p :: mapSet rest k v

/-- The request body of POST /start-task (class TaskRequest, lines 94-98). -/
structure TaskRequest where
  prompt : String
  github_repo_url : String
  github_branch : String
  test_command : Option String

/-- Python truthiness of an optional string: `None` and `""` are falsy. -/
def pyTruthy : Option String → Bool
  | none => false
  | some s => s != ""

/-- Python `str.split()` with no separator, on character lists: split on
whitespace runs, dropping empty tokens. The accumulator holds the current
token reversed. -/
def wsWords : List Char → List Char → List (List Char)
  | [], acc => if acc.isEmpty then [] else [acc.reverse]
  | c :: rest, acc =>
    if c.isWhitespace then
      if acc.isEmpty then wsWords rest [] else acc.reverse :: wsWords rest []
    else wsWords rest (c :: acc)

/-- Python `s.split()[0]` as an option: whitespace split dropping empties,
then the head (`none` models the IndexError on a whitespace-only string). -/
def firstWord (s : String) : Option String :=
  ((wsWords s.data []).map (fun l => String.mk l)).head?

/-- Python `f"{x}"` of an optional string: `None` renders as "None". -/
def pyOptStr : Option String → String
  | some s => s
  | none => "None"

/-- Python `s.rstrip(chars)`: remove the maximal trailing run of characters
belonging to the set `chars` (character-set strip, not suffix removal). -/
def pyRstrip (s : String) (chars : String) : String :=
  String.mk ((s.data.reverse.dropWhile (fun c => chars.data.contains c)).reverse)

/-- Python `s.split(sep)` for a non-empty separator, on character lists:
non-overlapping occurrences, left to right. Fuel-driven so that it computes
by kernel reduction; `splitSub` supplies sufficient fuel. The accumulator
holds the current piece reversed. -/
def splitSubFuel (sep : List Char) : Nat → List Char → List Char → List (List Char)
  | 0, l, acc => [acc.reverse ++ l]
  | _ + 1, [], acc => [acc.reverse]
  | n + 1, c :: rest, acc =>
    if sep.isPrefixOf (c :: rest) then
      acc.reverse :: splitSubFuel sep n (List.drop (sep.length - 1) rest) []
    else
      splitSubFuel sep n rest (c :: acc)

/-- Python `s.split(sep)` (see `splitSubFuel`). -/
def splitSub (sep l : List Char) : List (List Char) :=
  splitSubFuel sep (l.length + 1) l []

/-- Line 177: `owner_repo = req.github_repo_url.rstrip(".git").split("github.com/")[-1]`. -/
def ownerRepo (url : String) : String :=
  ((splitSub "github.com/".data (pyRstrip url ".git").data).map
    (fun l => String.mk l)).getLastD ""

/-- Line 158: `new_branch = f"jules-agent-{task_id[:8]}"`. -/
def newBranchName (task_id : String) : String :=
  "jules-agent-" ++ task_id.take 8

/-- Line 179: the PR title `f"Agent PR: {req.prompt[:50]}"`. -/
def prTitle (req : TaskRequest) : String :=
  "Agent PR: " ++ req.prompt.take 50

/-- Line 182: the PR body. -/
def prBody (req : TaskRequest) : String :=
  "Changes proposed by agent for prompt: " ++ req.prompt

/-- Line 144: the substituted no-op gate command. -/
def fallbackCmd : String :=
  "echo \x27Test command not available, skipping tests\x27"

/-- Outcomes of the external world for one run_agent invocation: the
GITHUB_TOKEN variable, executable resolution (shutil.which), the gate
command's exit code, and each external call's failure (`none` = success,
`some e` = the str of the exception the call raised). -/
structure Env where
  githubToken : Option String
  whichOk : String → Bool
  gateExit : String → Int
  mkdirErr : Option String
  cloneErr : Option String
  checkoutErr : Option String
  cfgNameErr : Option String
  cfgEmailErr : Option String
  branchErr : Option String
  modifyErr : Option String
  addErr : Option String
  commitErr : Option String
  pushErr : Option String
  prErr : Option String
  prUrl : Option String

/-- The externally observable pipeline steps, in attempt order. -/
inductive AStep where
  | credCheck
  | mkdir
  | clone
  | checkoutBase
  | cfgName
  | cfgEmail
  | newBranch (name : String)
  | modifyReadme
  | gate (cmd : String)
  | gitAdd
  | gitCommit
  | gitPush
  | prCreate (orepo title head base body : String)
deriving DecidableEq, Repr

/-- Steps at or after the commit phase (commit, push, PR creation). -/
def AStep.isPushPhase : AStep → Bool
  | .gitAdd => true
  | .gitCommit => true
  | .gitPush => true
  | .prCreate _ _ _ _ _ => true
  | _ => false

/-- The terminal record written on any caught exception (line 198). -/
def mkFailed (e : String) : TaskRecord := ⟨"failed", some e⟩

/-- The terminal record written on success (lines 191-194). -/
def mkCompleted (prUrl : Option String) : TaskRecord :=
  ⟨"completed", some ("Pull request created: " ++ pyOptStr prUrl)⟩

/-- Lines 139-144: gate-command substitution. If a truthy test command was
supplied, resolve its first word; unresolvable binaries are replaced by the
no-op fallback. The error models the IndexError on `split()[0]`. -/
def substGate (env : Env) (tc : Option String) : Except String (Option String) :=
  if pyTruthy tc then
    match firstWord (tc.getD "") with
    | none => .error "list index out of range"
    | some binary =>
      if env.whichOk binary then .ok tc else .ok (some fallbackCmd)
  else .ok tc

/-- Run a sequence of checked external calls: stop at the first failure,
recording the steps attempted (the failing step included). -/
def seqCalls : List (AStep × Option String) → Except String Unit × List AStep
  | [] => (.ok (), [])
  | (s, some e) :: _ => (.error e, [s])
  | (s, none) :: rest =>
    let out := seqCalls rest
    (out.1, s :: out.2)

/-- Lines 146-163: workspace creation, clone, base checkout, identity
configuration, branch creation, README modification. -/
def setupCalls (env : Env) (task_id : String) : List (AStep × Option String) :=
  [(.mkdir, env.mkdirErr), (.clone, env.cloneErr), (.checkoutBase, env.checkoutErr),
   (.cfgName, env.cfgNameErr), (.cfgEmail, env.cfgEmailErr),
   (.newBranch (newBranchName task_id), env.branchErr),
   (.modifyReadme, env.modifyErr)]

/-- Lines 171-174: git add, commit, push. -/
def pushCalls (env : Env) : List (AStep × Option String) :=
  [(.gitAdd, env.addErr), (.gitCommit, env.commitErr), (.gitPush, env.pushErr)]

/-- Lines 171-194: the tail of the pipeline after the gate — commit, push,
PR creation, and the success record. -/
def runTail (env : Env) (req : TaskRequest) (task_id : String) (pre : List AStep) :
    TaskRecord × List AStep :=
  match seqCalls (pushCalls env) with
  | (.error e, l2) => (mkFailed e, pre ++ l2)
  | (.ok _, l2) =>
    let prStep := AStep.prCreate (ownerRepo req.github_repo_url) (prTitle req)
      (newBranchName task_id) req.github_branch (prBody req)
    match env.prErr with
    | some e => (mkFailed e, pre ++ l2 ++ [prStep])
    | none => (mkCompleted env.prUrl, pre ++ l2 ++ [prStep])

/-- Lines 129-200 (run_agent), per-job core: the terminal record that the
try/except writes for this job, together with the external steps attempted.
Every exception raised by a step is caught and converted to a failed record,
so the function is total. -/
def runAgentCore (env : Env) (req : TaskRequest) (task_id : String) :
    TaskRecord × List AStep :=
  match env.githubToken with
  | none => (mkFailed "GITHUB_TOKEN is not set", [])
  | some _ =>
    match substGate env req.test_command with
    | .error e => (mkFailed e, [.credCheck])
    | .ok cmd =>
      match seqCalls (setupCalls env task_id) with
      | (.error e, l1) => (mkFailed e, .credCheck :: l1)
      | (.ok _, l1) =>
        if pyTruthy cmd then
          let c := cmd.getD ""
          if env.gateExit c != 0 then
            (mkFailed "Tests failed. Aborting push.", (.credCheck :: l1) ++ [.gate c])
          else
            runTail env req task_id ((.credCheck :: l1) ++ [.gate c])
        else
          runTail env req task_id (.credCheck :: l1)

/-- JSON values, as returned by the endpoints and stored by the file backend. -/
inductive Json where
  | null : Json
  | str : String → Json
  | obj : List (String × Json) → Json

/-- Encode an optional string (Python `None` becomes JSON null). -/
def optJson : Option String → Json
  | none => .null
  | some s => .str s

/-- The JSON object for one task record. -/
def encodeRecord (r : TaskRecord) : Json :=
  .obj [("status", .str r.status), ("result", optJson r.result)]

/-- Lines 101-108 (store effect): POST /start-task inserts
`{"status": "running", "result": None}` under the fresh task id. -/
def start_task (tasks : TaskMap) (task_id : String) : TaskMap :=
  mapSet tasks task_id ⟨"running", none⟩

/-- Lines 111-114: GET /task-status returns the stored record, or the literal
`{"status": "unknown"}` when the id has no record. -/
def get_status (tasks : TaskMap) (task_id : String) : Json :=
  match mapGet tasks task_id with
  | some r => encodeRecord r
  | none => .obj [("status", .str "unknown")]

/-- Lines 117-126: GET /task-result returns `{"status": "unknown", "result": None}`
for a missing id, otherwise the stored status and result fields. -/
def get_result (tasks : TaskMap) (task_id : String) : Json :=
  match mapGet tasks task_id with
  | none => .obj [("status", .str "unknown"), ("result", Json.null)]
  | some r => .obj [("status", .str r.status), ("result", optJson r.result)]

/-- Serialize the whole mapping (json.dump view of the dict of dicts). -/
def encodeTasks (m : TaskMap) : Json :=
  .obj (m.map (fun p => (p.1, encodeRecord p.2)))

/-- Read a JSON string. -/
def decodeJsonStr : Json → Option String
  | .str s => some s
  | _ => none

/-- Read a JSON string-or-null as an optional string. -/
def decodeOptStr : Json → Option (Option String)
  | .null => some none
  | .str s => some (some s)
  | _ => none

/-- Decode one task record object. -/
def decodeRecord : Json → Option TaskRecord
  | .obj [("status", sv), ("result", rv)] =>
    match decodeJsonStr sv, decodeOptStr rv with
    | some st, some re => some ⟨st, re⟩
    | _, _ => none
  | _ => none

/-- Decode the entries of the top-level object. -/
def decodeEntries : List (String × Json) → Option TaskMap
  | [] => some []
  | (k, v) :: rest =>
    match decodeRecord v, decodeEntries rest with
    | some r, some m => some ((k, r) :: m)
    | _, _ => none

/-- Decode a whole task mapping. -/
def decodeTasks : Json → Option TaskMap
  | .obj l => decodeEntries l
  | _ => none

/-- The file backend's state: the JSON document at TASKS_FILE, or `none` when
the file does not exist. -/
structure FileState where
  contents : Option Json

/-- Lines 72-77 (save_tasks, file branch): serialize the full mapping to a
temporary path and atomically rename it into place — the net effect is that
the file now holds exactly the serialized mapping. -/
def save_tasks_file (m : TaskMap) (_fs : FileState) : FileState :=
  ⟨some (encodeTasks m)⟩

/-- Lines 56-60 (load_tasks, file branch): a missing file yields `{}`;
otherwise the file's JSON is parsed back into the mapping (a parse failure is
caught and also yields `{}`, line 63-65). -/
def load_tasks_file (fs : FileState) : TaskMap :=
  match fs.contents with
  | none => []
  | some j => (decodeTasks j).getD []

/-- System state: the shared store plus the full-mapping snapshots held by
the two kinds of in-flight writers — start_task handlers (line 104 loads
the mapping, line 106 saves its mutated copy) and run_agent invocations
(line 131 loads, line 200 saves). Both writers are load-modify-save over the
whole mapping, so both get their own load/save event pair. -/
structure SysState where
  store : TaskMap
  createSnaps : List (String × TaskMap)
  runSnaps : List (String × TaskMap)

/-- The store starts empty with nothing in flight. -/
def initState : SysState := ⟨[], [], []⟩

/-- The store-affecting events of the system: start_task's full-snapshot
load (line 104) and save of the snapshot with the fresh running record added
(lines 105-106), and run_agent's full-snapshot load (line 131) and save of
its mutated copy (lines 191-200). Creation is NOT atomic: events of other
handlers may interleave between a start_task's load and its save. -/
inductive Event where
  | startLoad (id : String)
  | startSave (id : String)
  | runLoad (id : String)
  | runSave (id : String) (env : Env) (req : TaskRequest)

/-- The snapshot held by the in-flight handler for `id`, if any (the most
recently loaded one first). -/
def lookupSnap : List (String × TaskMap) → String → Option TaskMap
  | [], _ => none
  | p :: rest, id => if p.1 == id then some p.2 else lookupSnap rest id

/-- One event's effect on the system state. -/
def step (s : SysState) : Event → SysState
  | .startLoad id => ⟨s.store, (id, s.store) :: s.createSnaps, s.runSnaps⟩
  | .startSave id =>
    match lookupSnap s.createSnaps id with
    | none => s
    | some m => ⟨mapSet m id ⟨"running", none⟩, s.createSnaps, s.runSnaps⟩
  | .runLoad id => ⟨s.store, s.createSnaps, (id, s.store) :: s.runSnaps⟩
  | .runSave id env req =>
    match lookupSnap s.runSnaps id with
    | none => s
    | some m => ⟨mapSet m id (runAgentCore env req id).1, s.createSnaps, s.runSnaps⟩

/-- Execute a trace of events from the initial state. -/
def execTrace (es : List Event) : SysState :=
  es.foldl step initState

/-- The status GET /task-status reports for `id` after a trace. -/
def traceStatus (es : List Event) (id : String) : String :=
  match mapGet (execTrace es).store id with
  | some r => r.status
  | none => "unknown"

/-! Helper lemmas about the dict operations. -/

theorem mapGet_mapSet_self (m : TaskMap) (k : String) (v : TaskRecord) :
    mapGet (mapSet m k v) k = some v := by
  induction m with
  | nil => simp [mapSet, mapGet]
  | cons p rest ih =>
    by_cases h : p.1 = k
    · simp [mapSet, mapGet, h]
    · simp [mapSet, mapGet, h, ih]

theorem mapGet_mapSet_ne (m : TaskMap) (k k' : String) (v : TaskRecord)
    (h : k' ≠ k) : mapGet (mapSet m k v) k' = mapGet m k' := by
  induction m with
  | nil => simp [mapSet, mapGet, Ne.symm h]
  | cons p rest ih =>
    by_cases hp : p.1 = k
    · simp [mapSet, mapGet, hp, Ne.symm h]
    · simp [mapSet, mapGet, hp, ih]

/-! Helper lemmas about the pipeline core. -/

theorem runTail_cases (env : Env) (req : TaskRequest) (task_id : String)
    (pre : List AStep) :
    (runTail env req task_id pre).1 = mkCompleted env.prUrl ∨
    ∃ e, (runTail env req task_id pre).1 = mkFailed e := by
  unfold runTail
  rcases h : seqCalls (pushCalls env) with ⟨r, l2⟩
  cases r with
  | error e => exact Or.inr ⟨e, rfl⟩
  | ok _ =>
    cases hpr : env.prErr with
    | some e => exact Or.inr ⟨e, rfl⟩
    | none => exact Or.inl rfl

theorem runAgentCore_cases (env : Env) (req : TaskRequest) (task_id : String) :
    (runAgentCore env req task_id).1 = mkCompleted env.prUrl ∨
    ∃ e, (runAgentCore env req task_id).1 = mkFailed e := by
  unfold runAgentCore
  cases env.githubToken with
  | none => exact Or.inr ⟨_, rfl⟩
  | some _ =>
    cases substGate env req.test_command with
    | error e => exact Or.inr ⟨e, rfl⟩
    | ok cmd =>
      rcases h : seqCalls (setupCalls env task_id) with ⟨r, l1⟩
      cases r with
      | error e => exact Or.inr ⟨e, rfl⟩
      | ok _ =>
        by_cases hg : pyTruthy cmd
        · simp only [hg, if_true]
          by_cases he : env.gateExit (cmd.getD "") != 0
          · simp only [he, if_true]
            exact Or.inr ⟨_, rfl⟩
          · simp only [he, if_false]
            exact runTail_cases env req task_id _
        · simp only [hg, if_false]
          exact runTail_cases env req task_id _

/-- A record produced by the pipeline is terminal with a non-None result. -/
theorem runAgentCore_terminal (env : Env) (req : TaskRequest) (task_id : String) :
    ((runAgentCore env req task_id).1.status = "completed" ∨
      (runAgentCore env req task_id).1.status = "failed") ∧
    (runAgentCore env req task_id).1.result ≠ none := by
  rcases runAgentCore_cases env req task_id with h | ⟨e, h⟩ <;> rw [h] <;>
    simp [mkCompleted, mkFailed]

/-! The store-shape invariant over system traces. -/

/-- Shape of every record the code ever writes: status is one of the three
written literals, and result is absent exactly in the running state. -/
def recordOK (r : TaskRecord) : Prop :=
  (r.status = "running" ∨ r.status = "completed" ∨ r.status = "failed") ∧
  (r.result = none ↔ r.status = "running")

/-- Every record of a mapping is well-shaped. -/
def mapOK (m : TaskMap) : Prop :=
  ∀ id r, mapGet m id = some r → recordOK r

/-- The store and every in-flight snapshot (of either writer) are
well-shaped. -/
def stateOK (s : SysState) : Prop :=
  mapOK s.store ∧ (∀ p ∈ s.createSnaps, mapOK p.2) ∧ ∀ p ∈ s.runSnaps, mapOK p.2

theorem recordOK_running : recordOK ⟨"running", none⟩ := by
  constructor
  · exact Or.inl rfl
  · simp

theorem recordOK_runAgentCore (env : Env) (req : TaskRequest) (task_id : String) :
    recordOK (runAgentCore env req task_id).1 := by
  have h := runAgentCore_terminal env req task_id
  constructor
  · rcases h.1 with h1 | h1
    · exact Or.inr (Or.inl h1)
    · exact Or.inr (Or.inr h1)
  · constructor
    · intro hres; exact absurd hres h.2
    · intro hrun
      rcases h.1 with h1 | h1 <;> rw [hrun] at h1 <;> simp at h1

theorem mapOK_mapSet (m : TaskMap) (k : String) (v : TaskRecord)
    (hm : mapOK m) (hv : recordOK v) : mapOK (mapSet m k v) := by
  intro id r h
  by_cases hk : id = k
  · subst hk
    rw [mapGet_mapSet_self] at h
    cases h
    exact hv
  · rw [mapGet_mapSet_ne m k id v hk] at h
    exact hm id r h

theorem mapOK_nil : mapOK [] := by
  intro id r h
  simp [mapGet] at h

theorem lookupSnap_mapOK (snaps : List (String × TaskMap)) (id : String)
    (m : TaskMap) (h : ∀ p ∈ snaps, mapOK p.2)
    (hs : lookupSnap snaps id = some m) : mapOK m := by
  induction snaps with
  | nil => simp [lookupSnap] at hs
  | cons p rest ih =>
    simp only [lookupSnap] at hs
    split at hs
    · cases hs
      exact h p (List.mem_cons_self p rest)
    · exact ih (fun q hq => h q (List.mem_cons_of_mem p hq)) hs

theorem stateOK_step (s : SysState) (e : Event) (h : stateOK s) :
    stateOK (step s e) := by
  cases e with
  | startLoad id =>
    refine ⟨h.1, ?_, h.2.2⟩
    intro p hp
    rcases List.mem_cons.mp hp with hp | hp
    · rw [hp]; exact h.1
    · exact h.2.1 p hp
  | startSave id =>
    simp only [step]
    cases hsn : lookupSnap s.createSnaps id with
    | none => exact h
    | some m =>
      refine ⟨?_, h.2.1, h.2.2⟩
      have hm : mapOK m := lookupSnap_mapOK s.createSnaps id m h.2.1 hsn
      exact mapOK_mapSet m id _ hm recordOK_running
  | runLoad id =>
    refine ⟨h.1, h.2.1, ?_⟩
    intro p hp
    rcases List.mem_cons.mp hp with hp | hp
    · rw [hp]; exact h.1
    · exact h.2.2 p hp
  | runSave id env req =>
    simp only [step]
    cases hsn : lookupSnap s.runSnaps id with
    | none => exact h
    | some m =>
      refine ⟨?_, h.2.1, h.2.2⟩
      have hm : mapOK m := lookupSnap_mapOK s.runSnaps id m h.2.2 hsn
      exact mapOK_mapSet m id _ hm (recordOK_runAgentCore env req id)

theorem stateOK_foldl (es : List Event) (s : SysState) (h : stateOK s) :
    stateOK (es.foldl step s) := by
  induction es generalizing s with
  | nil => exact h
  | cons e rest ih => exact ih (step s e) (stateOK_step s e h)

theorem stateOK_initState : stateOK initState :=
  ⟨mapOK_nil, by intro p hp; simp [initState] at hp,
    by intro p hp; simp [initState] at hp⟩

theorem stateOK_execTrace (es : List Event) : stateOK (execTrace es) :=
  stateOK_foldl es initState stateOK_initState

/-! Round-trip lemmas for the file backend's serialization. -/

theorem decodeRecord_encodeRecord (r : TaskRecord) :
    decodeRecord (encodeRecord r) = some r := by
  rcases r with ⟨st, re⟩
  cases re <;> rfl

theorem decodeEntries_encode (m : TaskMap) :
    decodeEntries (m.map (fun p => (p.1, encodeRecord p.2))) = some m := by
  induction m with
  | nil => rfl
  | cons p rest ih =>
    simp [decodeEntries, decodeRecord_encodeRecord, ih]

theorem decodeTasks_encodeTasks (m : TaskMap) :
    decodeTasks (encodeTasks m) = some m := by
  simp [decodeTasks, encodeTasks, decodeEntries_encode]

/-! The claims. -/

/-- C9: saving any mapping through the file-backed store and loading it back
returns the identical mapping — serialize, atomic replace, read, deserialize
is the identity on task mappings, whatever the file held before. -/
theorem claim_C9 (m : TaskMap) (fs : FileState) :
    load_tasks_file (save_tasks_file m fs) = m := by
  simp [save_tasks_file, load_tasks_file, decodeTasks_encodeTasks]

/-- C8: for an id with no record, GET /task-status returns the literal
`{"status": "unknown"}` and GET /task-result returns
`{"status": "unknown", "result": None}` — neither raises. -/
theorem claim_C8 (tasks : TaskMap) (task_id : String)
    (h : mapGet tasks task_id = none) :
    get_status tasks task_id = Json.obj [("status", Json.str "unknown")] ∧
    get_result tasks task_id =
      Json.obj [("status", Json.str "unknown"), ("result", Json.null)] := by
  unfold get_status get_result
  rw [h]
  exact ⟨rfl, rfl⟩

/-- C8 witness: the empty store knows no id "x". -/
theorem claim_C8_witness :
    get_status [] "x" = Json.obj [("status", Json.str "unknown")] ∧
    get_result [] "x" =
      Json.obj [("status", Json.str "unknown"), ("result", Json.null)] :=
  claim_C8 [] "x" rfl

/-- C10: every record reachable in the store (created by start_task or
terminally updated by run_agent's save) has status among "running",
"completed", "failed", and its result is None exactly while the status is
"running". Records are whole two-field dicts by construction, so task-result
reads always find both fields. -/
theorem claim_C10 (es : List Event) (task_id : String) (r : TaskRecord)
    (h : mapGet (execTrace es).store task_id = some r) :
    (r.status = "running" ∨ r.status = "completed" ∨ r.status = "failed") ∧
    (r.result = none ↔ r.status = "running") :=
  (stateOK_execTrace es).1 task_id r h

/-- C10 witness: the record created by submitting task "a". -/
theorem claim_C10_witness :
    ((TaskRecord.mk "running" none).status = "running" ∨
      (TaskRecord.mk "running" none).status = "completed" ∨
      (TaskRecord.mk "running" none).status = "failed") ∧
    ((TaskRecord.mk "running" none).result = none ↔
      (TaskRecord.mk "running" none).status = "running") :=
  claim_C10 [Event.startLoad "a", Event.startSave "a"] "a" ⟨"running", none⟩
    (by decide)

/-- C2: the pipeline always ends a started job in exactly one terminal
record — "completed" with a result embedding the created PR link, or
"failed" with the caught error's description. `runAgentCore` is a total
function: the try/except at lines 132-198 converts every step failure into
the failed record, so nothing escapes the pipeline boundary. -/
theorem claim_C2 (env : Env) (req : TaskRequest) (task_id : String) :
    ((runAgentCore env req task_id).1.status = "completed" ∧
      (runAgentCore env req task_id).1.result =
        some ("Pull request created: " ++ pyOptStr env.prUrl)) ∨
    ((runAgentCore env req task_id).1.status = "failed" ∧
      ∃ e, (runAgentCore env req task_id).1.result = some e) := by
  rcases runAgentCore_cases env req task_id with h | ⟨e, h⟩
  · exact Or.inl ⟨by rw [h]; rfl, by rw [h]; rfl⟩
  · exact Or.inr ⟨by rw [h]; rfl, e, by rw [h]; rfl⟩

/-- C1 counterexample: immediately after submission (start_task's load-save
pair) — the only observable moment between submission and the start of
pipeline execution — the created record's status is "running", not
"pending", and it stays "running" after run_agent's initial load; so no
moment at which the status reads "pending" exists, refuting the claimed
Pending-at-creation lifecycle. -/
theorem claim_C1_counterexample :
    traceStatus [Event.startLoad "A", Event.startSave "A"] "A" = "running" ∧
    traceStatus [Event.startLoad "A", Event.startSave "A",
      Event.runLoad "A"] "A" = "running" ∧
    traceStatus [Event.startLoad "A", Event.startSave "A"] "A" ≠ "pending" := by
  refine ⟨rfl, rfl, ?_⟩
  decide

/-- Creation (start_task's load followed by its save, lines 104-106) writes
the fresh id's record as {"status": "running", "result": None}. -/
theorem step_create (s : SysState) (id : String) :
    mapGet (step (step s (.startLoad id)) (.startSave id)).store id =
      some ⟨"running", none⟩ := by
  have hl : lookupSnap ((id, s.store) :: s.createSnaps) id = some s.store := by
    simp [lookupSnap]
  simp only [step, hl]
  exact mapGet_mapSet_self s.store id ⟨"running", none⟩

/-- C1 amended: the job record is created at submission time directly with
status "running" (there is no Pending state): whatever went before,
start_task's load-save pair leaves the new id's status at "running"; and at
no reachable state does getStatus report "pending" for any id. -/
theorem claim_C1_amended :
    (∀ es id,
      traceStatus (es ++ [.startLoad id, .startSave id]) id = "running") ∧
    (∀ es id, traceStatus es id ≠ "pending") := by
  constructor
  · intro es id
    unfold traceStatus execTrace
    rw [List.foldl_append]
    simp only [List.foldl_cons, List.foldl_nil]
    rw [step_create (es.foldl step initState) id]
  · intro es id
    have h := stateOK_execTrace es
    unfold traceStatus
    cases hm : mapGet (execTrace es).store id with
    | none => decide
    | some r =>
      have hr := h.1 id r hm
      show r.status ≠ "pending"
      rcases hr.1 with h1 | h1 | h1 <;> rw [h1] <;> decide

/-- An environment in which every external step of the pipeline succeeds. -/
def envAllOk : Env :=
  ⟨some "tok", fun _ => true, fun _ => 0, none, none, none, none, none, none,
    none, none, none, none, none, some "https://github.com/o/r/pull/1"⟩

/-- A plain request with no gate command. -/
def reqPlain : TaskRequest :=
  ⟨"add docs", "https://github.com/o/r.git", "main", none⟩

/-- The interleaving in which jobs A and B overlap: both are submitted
(creation's load-save pair) and both run_agents take their full-mapping
snapshots before A's save lands. -/
def raceOpen : List Event :=
  [.startLoad "A", .startSave "A", .runLoad "A",
   .startLoad "B", .startSave "B", .runLoad "B",
   .runSave "A" envAllOk reqPlain]

/-- C3 counterexample: after `raceOpen`, job A is terminal ("completed"), yet
B's subsequent save — a legitimate operation of the system, writing back the
full snapshot it loaded before A finished — reverts A's status to "running".
A terminal record is overwritten with a different value, so later
getStatus/getResult calls do not return the terminal value. -/
theorem claim_C3_counterexample :
    traceStatus raceOpen "A" = "completed" ∧
    traceStatus (raceOpen ++ [.runSave "B" envAllOk reqPlain]) "A" = "running" := by
  constructor <;> decide

/-- Conditions under which one event cannot disturb the record of `id`:
either writer's snapshot load always; either writer's full-snapshot save —
start_task's (line 106) as much as run_agent's (line 200) — only when it is
for a different job and its snapshot (if it has one) already contains the
record `r` of `id`, i.e. the snapshot was not taken before `id`'s terminal
write. The race of claim_C3_counterexample violates exactly that snapshot
condition; a creation whose line-104 load predates the terminal write
violates it the same way. -/
def preservesId (s : SysState) (id : String) (r : TaskRecord) : Event → Prop
  | .startLoad _ => True
  | .startSave nid =>
    nid ≠ id ∧ ∀ m, lookupSnap s.createSnaps nid = some m → mapGet m id = some r
  | .runLoad _ => True
  | .runSave sid _ _ =>
    sid ≠ id ∧ ∀ m, lookupSnap s.runSnaps sid = some m → mapGet m id = some r

/-- C3 amended: reads never modify records, and once a job's record is
terminal ("completed" or "failed") it is preserved by every snapshot load
and by every full-snapshot save — a creation's (start_task, lines 104-106)
or a run_agent's (lines 131, 200) — that is for a different job and whose
snapshot already contains the terminal record. A save whose snapshot was
taken before the terminal write, by either writer, overwrites the terminal
record with its stale value — the full-snapshot read-modify-write race the
design accepts. -/
theorem claim_C3_amended (s : SysState) (id : String) (r : TaskRecord)
    (_hterm : r.status = "completed" ∨ r.status = "failed")
    (hget : mapGet s.store id = some r)
    (e : Event) (hsafe : preservesId s id r e) :
    mapGet (step s e).store id = some r := by
  cases e with
  | startLoad nid => exact hget
  | startSave nid =>
    have hs : nid ≠ id ∧
        ∀ m, lookupSnap s.createSnaps nid = some m → mapGet m id = some r := hsafe
    show mapGet (match lookupSnap s.createSnaps nid with
      | none => s
      | some m =>
        ⟨mapSet m nid ⟨"running", none⟩, s.createSnaps, s.runSnaps⟩).store id
      = some r
    cases hsn : lookupSnap s.createSnaps nid with
    | none => exact hget
    | some m =>
      have hid : id ≠ nid := fun h => hs.1 h.symm
      show mapGet (mapSet m nid ⟨"running", none⟩) id = some r
      rw [mapGet_mapSet_ne m nid id _ hid]
      exact hs.2 m hsn
  | runLoad nid => exact hget
  | runSave sid env req =>
    have hs : sid ≠ id ∧
        ∀ m, lookupSnap s.runSnaps sid = some m → mapGet m id = some r := hsafe
    show mapGet (match lookupSnap s.runSnaps sid with
      | none => s
      | some m =>
        ⟨mapSet m sid (runAgentCore env req sid).1,
          s.createSnaps, s.runSnaps⟩).store id = some r
    cases hsn : lookupSnap s.runSnaps sid with
    | none => exact hget
    | some m =>
      have hid : id ≠ sid := fun h => hs.1 h.symm
      show mapGet (mapSet m sid (runAgentCore env req sid).1) id = some r
      rw [mapGet_mapSet_ne m sid id _ hid]
      exact hs.2 m hsn

/-- C3 amended witness: a store holding a completed job "A" and an in-flight
creation of "B" whose snapshot already contains A's terminal record; B's
creation save inserts B's running record without disturbing A. -/
theorem claim_C3_amended_witness :
    mapGet (step ⟨[("A", ⟨"completed", some "done"⟩)],
      [("B", [("A", ⟨"completed", some "done"⟩)])], []⟩
      (.startSave "B")).store "A" = some ⟨"completed", some "done"⟩ :=
  claim_C3_amended ⟨[("A", ⟨"completed", some "done"⟩)],
      [("B", [("A", ⟨"completed", some "done"⟩)])], []⟩ "A"
    ⟨"completed", some "done"⟩ (Or.inl rfl) (by decide) (.startSave "B")
    (by
      show ("B" : String) ≠ "A" ∧
        ∀ m, lookupSnap [("B", [("A", (⟨"completed", some "done"⟩ : TaskRecord))])]
          "B" = some m →
          mapGet m "A" = some ⟨"completed", some "done"⟩
      refine ⟨by decide, ?_⟩
      intro m hm
      have hm' : m = [("A", (⟨"completed", some "done"⟩ : TaskRecord))] := by
        simp [lookupSnap] at hm
        exact hm.symm
      rw [hm']
      decide)

/-- C4: when a (resolvable) gate command's execution exits non-zero, the job
fails with exactly "Tests failed. Aborting push." — the str of the
RuntimeError raised at line 169 — and no commit, push, or PR-creation step is
ever attempted. -/
theorem claim_C4 (env : Env) (req : TaskRequest) (task_id : String)
    (t c b : String)
    (htok : env.githubToken = some t)
    (hcmd : req.test_command = some c) (hc : c ≠ "")
    (hb : firstWord c = some b) (hwhich : env.whichOk b = true)
    (h1 : env.mkdirErr = none) (h2 : env.cloneErr = none)
    (h3 : env.checkoutErr = none) (h4 : env.cfgNameErr = none)
    (h5 : env.cfgEmailErr = none) (h6 : env.branchErr = none)
    (h7 : env.modifyErr = none)
    (hexit : env.gateExit c ≠ 0) :
    (runAgentCore env req task_id).1 = mkFailed "Tests failed. Aborting push." ∧
    ∀ st ∈ (runAgentCore env req task_id).2, st.isPushPhase = false := by
  have hrun : runAgentCore env req task_id =
      (mkFailed "Tests failed. Aborting push.",
        [.credCheck, .mkdir, .clone, .checkoutBase, .cfgName, .cfgEmail,
         .newBranch (newBranchName task_id), .modifyReadme, .gate c]) := by
    unfold runAgentCore
    rw [htok]
    simp [substGate, pyTruthy, hcmd, hc, hb, hwhich, setupCalls, seqCalls,
      h1, h2, h3, h4, h5, h6, h7, hexit]
  rw [hrun]
  refine ⟨rfl, ?_⟩
  intro st hst
  simp only [List.mem_cons, List.not_mem_nil, or_false] at hst
  rcases hst with rfl | rfl | rfl | rfl | rfl | rfl | rfl | rfl | rfl <;> rfl

/-- An environment whose gate command always exits 1 and whose external calls
otherwise succeed. -/
def envGateFails : Env :=
  ⟨some "tok", fun _ => true, fun _ => 1, none, none, none, none, none, none,
    none, none, none, none, none, some "https://github.com/o/r/pull/1"⟩

/-- A request carrying the failing gate command. -/
def reqGate : TaskRequest :=
  ⟨"add docs", "https://github.com/o/r.git", "main", some "pytest"⟩

/-- C4 witness: concrete run in `envGateFails`. -/
theorem claim_C4_witness :
    (runAgentCore envGateFails reqGate "tid").1 =
      mkFailed "Tests failed. Aborting push." ∧
    ∀ st ∈ (runAgentCore envGateFails reqGate "tid").2,
      st.isPushPhase = false :=
  claim_C4 envGateFails reqGate "tid" "tok" "pytest" "pytest" rfl rfl
    (by decide) (by decide) rfl rfl rfl rfl rfl rfl rfl rfl (by decide)

/-- C5: when the gate command's executable is not resolvable, the gate is
replaced by the skip no-op `echo ...` (line 144); the substituted command is
what runs as the gate, and — it exiting 0 and the remaining steps
succeeding — the pipeline proceeds through commit, push, and PR creation to
the "completed" terminal record instead of failing for the missing tool. -/
theorem claim_C5 (env : Env) (req : TaskRequest) (task_id : String)
    (t c b : String)
    (htok : env.githubToken = some t)
    (hcmd : req.test_command = some c) (hc : c ≠ "")
    (hb : firstWord c = some b) (hwhich : env.whichOk b = false)
    (h1 : env.mkdirErr = none) (h2 : env.cloneErr = none)
    (h3 : env.checkoutErr = none) (h4 : env.cfgNameErr = none)
    (h5 : env.cfgEmailErr = none) (h6 : env.branchErr = none)
    (h7 : env.modifyErr = none)
    (hskip : env.gateExit fallbackCmd = 0)
    (h8 : env.addErr = none) (h9 : env.commitErr = none)
    (h10 : env.pushErr = none) (h11 : env.prErr = none) :
    (runAgentCore env req task_id).1 = mkCompleted env.prUrl ∧
    AStep.gate fallbackCmd ∈ (runAgentCore env req task_id).2 ∧
    AStep.gitAdd ∈ (runAgentCore env req task_id).2 ∧
    AStep.gitCommit ∈ (runAgentCore env req task_id).2 ∧
    AStep.gitPush ∈ (runAgentCore env req task_id).2 ∧
    AStep.prCreate (ownerRepo req.github_repo_url) (prTitle req)
      (newBranchName task_id) req.github_branch (prBody req) ∈
      (runAgentCore env req task_id).2 := by
  have hrun : runAgentCore env req task_id =
      (mkCompleted env.prUrl,
        [.credCheck, .mkdir, .clone, .checkoutBase, .cfgName, .cfgEmail,
         .newBranch (newBranchName task_id), .modifyReadme, .gate fallbackCmd,
         .gitAdd, .gitCommit, .gitPush,
         .prCreate (ownerRepo req.github_repo_url) (prTitle req)
           (newBranchName task_id) req.github_branch (prBody req)]) := by
    have hfb : ¬fallbackCmd = "" := by decide
    unfold runAgentCore
    rw [htok]
    simp [substGate, pyTruthy, hcmd, hc, hb, hwhich, setupCalls, seqCalls,
      h1, h2, h3, h4, h5, h6, h7, hskip, hfb, runTail, pushCalls,
      h8, h9, h10, h11]
  rw [hrun]
  refine ⟨rfl, ?_, ?_, ?_, ?_, ?_⟩ <;> simp

/-- An environment in which the gate binary is unresolvable, the substituted
no-op exits 0, and all other external calls succeed. -/
def envNoTool : Env :=
  ⟨some "tok", fun _ => false, fun _ => 0, none, none, none, none, none, none,
    none, none, none, none, none, some "https://github.com/o/r/pull/2"⟩

/-- C5 witness: concrete run in `envNoTool` with gate command "pytest". -/
theorem claim_C5_witness :
    (runAgentCore envNoTool reqGate "tid").1 =
      mkCompleted (some "https://github.com/o/r/pull/2") ∧
    AStep.gate fallbackCmd ∈ (runAgentCore envNoTool reqGate "tid").2 ∧
    AStep.gitAdd ∈ (runAgentCore envNoTool reqGate "tid").2 ∧
    AStep.gitCommit ∈ (runAgentCore envNoTool reqGate "tid").2 ∧
    AStep.gitPush ∈ (runAgentCore envNoTool reqGate "tid").2 ∧
    AStep.prCreate (ownerRepo reqGate.github_repo_url) (prTitle reqGate)
      (newBranchName "tid") reqGate.github_branch (prBody reqGate) ∈
      (runAgentCore envNoTool reqGate "tid").2 :=
  claim_C5 envNoTool reqGate "tid" "tok" "pytest" "pytest" rfl rfl
    (by decide) (by decide) rfl rfl rfl rfl rfl rfl rfl rfl rfl rfl rfl rfl rfl

/-- C6: code bug. `rstrip(".git")` strips a trailing run of the characters
'.', 'g', 'i', 't' instead of removing the ".git" suffix, so for the address
"https://github.com/owner/unit.git" (owner "owner", repository "unit") the
owner/repository path passed to the hosting API is "owner/un", not the
"owner/unit" the derivation intends. -/
theorem claim_C6_eval :
    ownerRepo "https://github.com/owner/unit.git" = "owner/un" ∧
    "owner/un" ≠ "owner/unit" ∧
    ownerRepo "https://github.com/owner/repo.git" = "owner/repo" := by
  refine ⟨by decide, by decide, by decide⟩

/-- C7 counterexample: the derived branch name is a pure function of the job
id with no dependence on the base branch, so a base branch named exactly
"jules-agent-" plus the id's first 8 characters collides with it: for job id
"abcd1234-0000-4000-8000-000000000000" and a request whose base branch is
"jules-agent-abcd1234", the derived name equals the base branch. -/
theorem claim_C7_counterexample :
    newBranchName "abcd1234-0000-4000-8000-000000000000" =
      (TaskRequest.mk "p" "https://github.com/o/r.git" "jules-agent-abcd1234"
        none).github_branch := by
  decide

/-- C7 amended: the branch name is derived deterministically from the job id
as the fixed prefix "jules-agent-" plus the id's first 8 characters, and it
differs from the base branch except in the single case where the base branch
itself is that very string (in particular it always differs from the default
base "main"). -/
theorem claim_C7_amended (task_id : String) (req : TaskRequest)
    (h : req.github_branch ≠ "jules-agent-" ++ task_id.take 8) :
    newBranchName task_id = "jules-agent-" ++ task_id.take 8 ∧
    newBranchName task_id ≠ req.github_branch ∧
    newBranchName task_id ≠ "main" := by
  refine ⟨rfl, ?_, ?_⟩
  · intro he
    exact h he.symm
  · intro he
    have hl := congrArg String.length he
    rw [newBranchName, String.length_append] at hl
    have h12 : ("jules-agent-" : String).length = 12 := rfl
    have h4 : ("main" : String).length = 4 := rfl
    rw [h12, h4] at hl
    omega

/-- C7 amended witness: job id "abcd1234-0000" with default base "main". -/
theorem claim_C7_amended_witness :
    newBranchName "abcd1234-0000" = "jules-agent-" ++ ("abcd1234-0000" : String).take 8 ∧
    newBranchName "abcd1234-0000" ≠ reqPlain.github_branch ∧
    newBranchName "abcd1234-0000" ≠ "main" :=
  claim_C7_amended "abcd1234-0000" reqPlain (by decide)
